import Mathlib

/-!
Shallow embedding of the image-generation service of lanexatech/img4andnano.

The repository has two implementations of the same service:
  * `src/services/geminiService.ts` — resolves the client inside the try block;
  * `src/unnamed/part_001`          — uses a module-level default client.
Both share the request marshalling, response unwrapping and error
classification logic embedded below.  The vendor SDK backend is modelled as
an oracle (`Backend`): a pair of functions from (client api key, request) to
either a response or a thrown `JsError`.  `generateImage` returns both the
observable result (success payload or error code, as `Except String String`)
and the ordered list of backend calls it issued.
-/

/-- `interface ImageInput` of geminiService.ts: base64 payload plus media type. -/
structure ImageInput where
  data : String
  mimeType : String
deriving Repr, DecidableEq

/-- A client handle (`new GoogleGenAI({apiKey})`): bound to one credential. -/
structure GoogleGenAI where
  apiKey : String
deriving Repr, DecidableEq

/-- A thrown JavaScript `Error`: only its `message` is ever inspected. -/
structure JsError where
  message : String
deriving Repr, DecidableEq

/-- `Modality` from the vendor SDK, as used in `responseModalities`. -/
inductive Modality where
  | IMAGE
  | TEXT
deriving Repr, DecidableEq

/-- The `config` object of the `generateImages` request. -/
structure ImagesConfig where
  numberOfImages : Nat
  outputMimeType : String
  aspectRatio : String
deriving Repr, DecidableEq

/-- The request sent to `ai.models.generateImages`. -/
structure GenerateImagesRequest where
  model : String
  prompt : String
  config : ImagesConfig
deriving Repr, DecidableEq

/-- `generatedImages[i].image` of the generateImages response. -/
structure ImageObject where
  imageBytes : String
deriving Repr, DecidableEq

/-- One element of `response.generatedImages`. -/
structure GeneratedImage where
  image : ImageObject
deriving Repr, DecidableEq

/-- The `generateImages` response; `generatedImages` may be absent. -/
structure GenerateImagesResponse where
  generatedImages : Option (List GeneratedImage)
deriving Repr, DecidableEq

/-- A content part of the `generateContent` request:
`{ text }` or `{ inlineData: { data, mimeType } }`. -/
inductive RequestPart where
  | text (text : String)
  | inlineData (data : String) (mimeType : String)
deriving Repr, DecidableEq

/-- The request sent to `ai.models.generateContent`
(`contents.parts` and `config.responseModalities`). -/
structure GenerateContentRequest where
  model : String
  parts : List RequestPart
  responseModalities : List Modality
deriving Repr, DecidableEq

/-- `part.inlineData` of a response part. -/
structure InlineData where
  data : String
  mimeType : String
deriving Repr, DecidableEq

/-- A part of the content of a response candidate; it may carry inline binary
data, text, or neither. -/
structure ResponsePart where
  inlineData : Option InlineData
  text : Option String
deriving Repr, DecidableEq

/-- `candidate.content`; its `parts` list may be absent. -/
structure ResponseContent where
  parts : Option (List ResponsePart)
deriving Repr, DecidableEq

/-- One element of `response.candidates`; its `content` may be absent. -/
structure Candidate where
  content : Option ResponseContent
deriving Repr, DecidableEq

/-- The `generateContent` response; `candidates` may be absent. -/
structure GenerateContentResponse where
  candidates : Option (List Candidate)
deriving Repr, DecidableEq

/-- A record of one backend operation invocation: which operation, with
which client credential, carrying which request. -/
inductive BackendCall where
  | images (apiKey : String) (req : GenerateImagesRequest)
  | content (apiKey : String) (req : GenerateContentRequest)
deriving Repr, DecidableEq

/-- The backend oracle standing for `ai.models`: each operation takes the
credential of the client and the request and either returns a response or throws. -/
structure Backend where
  generateImages : String → GenerateImagesRequest → Except JsError GenerateImagesResponse
  generateContent : String → GenerateContentRequest → Except JsError GenerateContentResponse

/-- JavaScript truthiness of a `string | undefined` value: present and
non-empty. -/
def jsTruthy : Option String → Bool
  | none => false
  | some s => decide (s ≠ "")

/-- `const effectiveApiKey = apiKey || process.env.API_KEY;`
(JS `||` keeps the first operand when it is truthy). -/
def effectiveKey (apiKey env : Option String) : Option String :=
  if jsTruthy apiKey then apiKey else env

/-- `getAiClient` of src/services/geminiService.ts: prefer the custom key,
fall back to the environment variable, throw when neither is truthy. -/
def getAiClient (apiKey env : Option String) : Except JsError GoogleGenAI :=
  let effectiveApiKey := effectiveKey apiKey env
  if !jsTruthy effectiveApiKey then
    .error ⟨"API key not provided. Please enter a key or configure the environment variable."⟩
  else
    .ok ⟨effectiveApiKey.getD ""⟩

/-- `getAiClient` of src/unnamed/part_001: a truthy override yields a fresh
client, otherwise the module-level `defaultAi` (bound to the environment key
checked at module load) is returned.  Total: it never throws. -/
def getAiClient2 (defaultKey : String) (apiKey : Option String) : GoogleGenAI :=
  if jsTruthy apiKey then ⟨apiKey.getD ""⟩ else ⟨defaultKey⟩

/-- `charsStart pat l` is true when `pat` is an initial segment of `l`. -/
def charsStart : List Char → List Char → Bool
  | [], _ => true
  | _ :: _, [] => false
  | p :: ps, c :: cs => p == c && charsStart ps cs

/-- Helper for `strIncludes`: does `pat` start at some position of the list? -/
def strIncludesAux (pat : List Char) : List Char → Bool
  | [] => charsStart pat []
  | c :: cs => charsStart pat (c :: cs) || strIncludesAux pat cs

/-- JavaScript `s.includes(pat)`: `pat` occurs as a contiguous substring. -/
def strIncludes (s pat : String) : Bool :=
  strIncludesAux pat.toList s.toList

/-- ASCII lowercasing of one character (the only case relevant to the
messages that are classified). -/
def charToLower (c : Char) : Char :=
  if 65 ≤ c.toNat ∧ c.toNat ≤ 90 then Char.ofNat (c.toNat + 32) else c

/-- JavaScript `s.toLowerCase()`, restricted to its ASCII action. -/
def strToLower (s : String) : String :=
  String.mk (s.toList.map charToLower)

/-- JavaScript `s.trim()`: strip leading and trailing whitespace. -/
def strTrim (s : String) : String :=
  String.mk (((s.toList.dropWhile Char.isWhitespace).reverse.dropWhile
    Char.isWhitespace).reverse)

/-- The catch block of `generateImage` (identical in both implementations):
lowercase the message, then map to one of the stable error codes. -/
def classifyError (e : JsError) : String :=
  let errorMessage := strToLower e.message
  if strIncludes errorMessage "429" || strIncludes errorMessage "quota"
      || strIncludes errorMessage "resource_exhausted" then
    "error_quota"
  else if strIncludes errorMessage "api" && strIncludes errorMessage "key" then
    "error_api_key"
  else
    "error_generic"

/-- The request literal built in the `imagen-4.0-generate-001` branch. -/
def imagesRequest (prompt aspectRatio : String) : GenerateImagesRequest :=
  { model := "imagen-4.0-generate-001"
    prompt := prompt
    config := { numberOfImages := 1, outputMimeType := "image/png", aspectRatio := aspectRatio } }

/-- The `parts` array built in the edit branch: push an inline-data part when
an image was supplied, then push a text part when `prompt.trim()` is truthy. -/
def editParts (prompt : String) (image : Option ImageInput) : List RequestPart :=
  (match image with
    | some img => [RequestPart.inlineData img.data img.mimeType]
    | none => []) ++
  (if strTrim prompt ≠ "" then [RequestPart.text prompt] else [])

/-- The request literal built in the `gemini-2.5-flash-image-preview` branch. -/
def contentRequest (prompt : String) (image : Option ImageInput) : GenerateContentRequest :=
  { model := "gemini-2.5-flash-image-preview"
    parts := editParts prompt image
    responseModalities := [Modality.IMAGE, Modality.TEXT] }

/-- `response.candidates?.[0]?.content?.parts ?? []`. -/
def partsOf (response : GenerateContentResponse) : List ResponsePart :=
  match response.candidates with
  | none => []
  | some [] => []
  | some (c :: _) =>
    match c.content with
    | none => []
    | some content =>
      match content.parts with
      | none => []
      | some ps => ps

/-- The `for (const part of ...) if (part.inlineData) return part.inlineData.data`
loop: payload of the first part carrying inline data, if any. -/
def firstInlineData : List ResponsePart → Option String
  | [] => none
  | p :: ps =>
    match p.inlineData with
    | some d => some d.data
    | none => firstInlineData ps

/-- The body of the try block after the client is resolved: branch on the
model tag, issue at most one backend call, unwrap the model-specific
response shape.  All failure paths throw (`Except.error`), mirroring the
source where every non-returning path reaches a `throw`. -/
def dispatch (backend : Backend) (ai : GoogleGenAI) (prompt aspectRatio model : String)
    (image : Option ImageInput) : Except JsError String × List BackendCall :=
  if model = "imagen-4.0-generate-001" then
    let req := imagesRequest prompt aspectRatio
    match backend.generateImages ai.apiKey req with
    | .error e => (.error e, [.images ai.apiKey req])
    | .ok response =>
      match response.generatedImages with
      | some (g :: _) => (.ok g.image.imageBytes, [.images ai.apiKey req])
      | some [] => (.error ⟨"error_no_images_returned"⟩, [.images ai.apiKey req])
      | none => (.error ⟨"error_no_images_returned"⟩, [.images ai.apiKey req])
  else if model = "gemini-2.5-flash-image-preview" then
    if editParts prompt image = [] then
      (.error ⟨"error_prompt_or_image_required_for_edit"⟩, [])
    else
      let req := contentRequest prompt image
      match backend.generateContent ai.apiKey req with
      | .error e => (.error e, [.content ai.apiKey req])
      | .ok response =>
        match firstInlineData (partsOf response) with
        | some data => (.ok data, [.content ai.apiKey req])
        | none => (.error ⟨"error_no_images_returned"⟩, [.content ai.apiKey req])
  else
    (.error ⟨"error_no_images_returned"⟩, [])

/-- `generateImage` of src/services/geminiService.ts.  The whole body runs
inside a try whose catch reclassifies every thrown error via
`classifyError`; the client is resolved inside the try, so a missing
credential is also routed through the catch.  Alongside the observable
result, the ordered list of backend calls issued is returned. -/
def generateImage (backend : Backend) (env : Option String) (prompt aspectRatio model : String)
    (image : Option ImageInput) (apiKey : Option String) :
    Except String String × List BackendCall :=
  let attempt :=
    match getAiClient apiKey env with
    | .error e => ((Except.error e : Except JsError String), ([] : List BackendCall))
    | .ok ai => dispatch backend ai prompt aspectRatio model image
  match attempt with
  | (.ok value, calls) => (.ok value, calls)
  | (.error e, calls) => (.error (classifyError e), calls)

/-- `generateImage` of src/unnamed/part_001: the client is resolved before
the try via the total `getAiClient2`; the rest of the body is identical.
`defaultKey` is the environment credential the module checked at load time. -/
def generateImage2 (backend : Backend) (defaultKey : String) (prompt aspectRatio model : String)
    (image : Option ImageInput) (apiKey : Option String) :
    Except String String × List BackendCall :=
  let ai := getAiClient2 defaultKey apiKey
  match dispatch backend ai prompt aspectRatio model image with
  | (.ok value, calls) => (.ok value, calls)
  | (.error e, calls) => (.error (classifyError e), calls)

/-- The quota condition of the catch block, as a predicate on raw messages. -/
def isQuotaMessage (m : String) : Bool :=
  strIncludes (strToLower m) "429" || strIncludes (strToLower m) "quota"
    || strIncludes (strToLower m) "resource_exhausted"

/-- A backend stub that rejects every operation; used for runs that must not
reach the backend. -/
def noBackend : Backend :=
  ⟨fun _ _ => .error ⟨"unused"⟩, fun _ _ => .error ⟨"unused"⟩⟩

/-- A backend stub whose generateImages succeeds with an empty image list. -/
def emptyImagesBackend : Backend :=
  ⟨fun _ _ => .ok ⟨some []⟩, fun _ _ => .error ⟨"unreachable"⟩⟩

/-- A backend stub whose generateContent succeeds with one candidate whose
single part carries text but no inline data. -/
def noInlineBackend : Backend :=
  ⟨fun _ _ => .error ⟨"unreachable"⟩,
   fun _ _ => .ok ⟨some [⟨some ⟨some [⟨none, some "just text"⟩]⟩⟩]⟩⟩

/-- A backend stub whose generateImages succeeds with exactly one generated
image carrying the payload AAAA. -/
def oneImageBackend : Backend :=
  ⟨fun _ _ => .ok ⟨some [⟨⟨"AAAA"⟩⟩]⟩, fun _ _ => .error ⟨"unreachable"⟩⟩

/-- A backend stub whose generateContent succeeds with two parts: a text-only
part followed by a part carrying inline payload BBBB. -/
def twoPartBackend : Backend :=
  ⟨fun _ _ => .error ⟨"unreachable"⟩,
   fun _ _ => .ok ⟨some [⟨some ⟨some [⟨none, some "hi"⟩, ⟨some ⟨"BBBB", "image/png"⟩, none⟩]⟩⟩]⟩⟩

/-- A backend stub that throws the given error on every operation. -/
def throwingBackend (e : JsError) : Backend :=
  ⟨fun _ _ => .error e, fun _ _ => .error e⟩

/-- The credential-missing message thrown by getAiClient classifies as
error_api_key (it contains both "api" and "key" and no quota marker). -/
theorem classify_missing_key_msg :
    classifyError ⟨"API key not provided. Please enter a key or configure the environment variable."⟩
      = "error_api_key" := by decide

/-- A message satisfying the quota condition classifies as error_quota. -/
theorem classifyError_quota (e : JsError) (h : isQuotaMessage e.message = true) :
    classifyError e = "error_quota" := by
  unfold isQuotaMessage at h
  unfold classifyError
  simp only [h, if_true]

/-- Scanning a part list whose first inline-data carrier is preceded only by
non-binary parts yields that carrier, skipping the earlier parts. -/
theorem firstInlineData_append (pre : List ResponsePart) (part : ResponsePart)
    (rest : List ResponsePart) (d : InlineData)
    (hpre : ∀ q ∈ pre, q.inlineData = none) (hpart : part.inlineData = some d) :
    firstInlineData (pre ++ part :: rest) = some d.data := by
  induction pre with
  | nil => simp [firstInlineData, hpart]
  | cons q qs ih =>
    have hq : q.inlineData = none := hpre q (by simp)
    simp only [List.cons_append, firstInlineData, hq]
    exact ih fun r hr => hpre r (by simp [hr])


/-- Claim C1: for every call to generateImage where the credential override
is absent or empty and the process-wide default credential is not
configured, the observable result is the error code error_api_key and no
backend operation (generateImages or generateContent) is invoked. -/
theorem generateImage_no_credential
    (backend : Backend) (env : Option String) (prompt aspectRatio model : String)
    (image : Option ImageInput) (apiKey : Option String)
    (hkey : jsTruthy apiKey = false) (henv : jsTruthy env = false) :
    generateImage backend env prompt aspectRatio model image apiKey
      = (Except.error "error_api_key", []) := by
  simp [generateImage, getAiClient, effectiveKey, hkey, henv, classify_missing_key_msg]

/-- Witness for C1 at a concrete input: no override, no environment key. -/
theorem generateImage_no_credential_witness :
    jsTruthy none = false ∧
    generateImage noBackend none "a red fox" "1:1" "imagen-4.0-generate-001" none none
      = (Except.error "error_api_key", []) :=
  ⟨by decide,
   generateImage_no_credential noBackend none "a red fox" "1:1" "imagen-4.0-generate-001"
     none none (by decide) (by decide)⟩

/-- Claim C2 (counter-evidence): an edit-variant call with a
whitespace-only prompt and no image makes zero backend calls, but its
observable result is error_generic, not
error_prompt_or_image_required_for_edit: the local throw is caught by the
catch block of the same function, whose message matches neither the quota nor
the api/key patterns, so it is reclassified. -/
theorem edit_validation_error_reclassified :
    generateImage noBackend (some "k") "   " "1:1" "gemini-2.5-flash-image-preview" none none
      = (Except.error "error_generic", []) := rfl

/-- Claim C3 (counter-evidence): in all three no-payload scenarios (empty
generated-image list, no part carrying inline data, unrecognized model tag)
the observable result is error_generic, not error_no_images_returned: the
local throw is caught by the catch block of the same function and reclassified. -/
theorem no_images_error_reclassified :
    (generateImage emptyImagesBackend (some "k") "p" "1:1" "imagen-4.0-generate-001" none none).1
        = Except.error "error_generic" ∧
    (generateImage noInlineBackend (some "k") "p" "1:1" "gemini-2.5-flash-image-preview" none none).1
        = Except.error "error_generic" ∧
    (generateImage noBackend (some "k") "p" "1:1" "unknown-model" none none).1
        = Except.error "error_generic" := by
  exact ⟨rfl, rfl, rfl⟩

/-- Claim C4: whenever a backend call was actually issued and the backend
throws an error whose lowercased message contains 429, quota or
resource_exhausted, the observable result is error_quota, regardless of
which model branch was taken. -/
theorem generateImage_quota
    (backend : Backend) (env : Option String) (prompt aspectRatio model : String)
    (image : Option ImageInput) (apiKey : Option String) (e : JsError)
    (hq : isQuotaMessage e.message = true)
    (hImages : ∀ k req, backend.generateImages k req = .error e)
    (hContent : ∀ k req, backend.generateContent k req = .error e)
    (hcalls : (generateImage backend env prompt aspectRatio model image apiKey).2 ≠ []) :
    (generateImage backend env prompt aspectRatio model image apiKey).1
      = Except.error "error_quota" := by
  unfold generateImage at hcalls ⊢
  cases hga : getAiClient apiKey env with
  | error e0 => simp [hga] at hcalls
  | ok ai =>
    simp only [hga] at hcalls ⊢
    unfold dispatch at hcalls ⊢
    by_cases h1 : model = "imagen-4.0-generate-001"
    · simp [h1, hImages, classifyError_quota e hq]
    · by_cases h2 : model = "gemini-2.5-flash-image-preview"
      · by_cases h3 : editParts prompt image = []
        · simp [h1, h2, h3] at hcalls
        · simp [h1, h2, h3, hContent, classifyError_quota e hq]
      · simp [h1, h2] at hcalls

/-- Witness for C4 at a concrete input: a backend that always throws an
error mentioning 429, on the text-to-image branch. -/
theorem generateImage_quota_witness :
    isQuotaMessage "HTTP 429 Too Many Requests" = true ∧
    (generateImage (throwingBackend ⟨"HTTP 429 Too Many Requests"⟩) (some "k") "p" "1:1"
        "imagen-4.0-generate-001" none none).2 ≠ [] ∧
    (generateImage (throwingBackend ⟨"HTTP 429 Too Many Requests"⟩) (some "k") "p" "1:1"
        "imagen-4.0-generate-001" none none).1 = Except.error "error_quota" :=
  ⟨by decide, by decide,
   generateImage_quota (throwingBackend ⟨"HTTP 429 Too Many Requests"⟩) (some "k") "p" "1:1"
     "imagen-4.0-generate-001" none none ⟨"HTTP 429 Too Many Requests"⟩
     (by decide) (fun _ _ => rfl) (fun _ _ => rfl) (by decide)⟩

/-- Claim C5: on the text-to-image branch, when the credential resolves and
the generateImages response of the backend reports at least one generated image,
generateImage returns the imageBytes of the first generated image (and
issued exactly that one backend call). -/
theorem generateImage_first_generated_image
    (backend : Backend) (env : Option String) (prompt aspectRatio : String)
    (image : Option ImageInput) (apiKey : Option String)
    (response : GenerateImagesResponse) (g : GeneratedImage) (rest : List GeneratedImage)
    (hkey : jsTruthy (effectiveKey apiKey env) = true)
    (hresp : backend.generateImages ((effectiveKey apiKey env).getD "")
        (imagesRequest prompt aspectRatio) = .ok response)
    (himgs : response.generatedImages = some (g :: rest)) :
    generateImage backend env prompt aspectRatio "imagen-4.0-generate-001" image apiKey
      = (Except.ok g.image.imageBytes,
         [BackendCall.images ((effectiveKey apiKey env).getD "")
           (imagesRequest prompt aspectRatio)]) := by
  simp [generateImage, getAiClient, hkey, dispatch, hresp, himgs]

/-- Witness for C5 at the concrete input given in the spec: prompt "a red fox", aspect
ratio "1:1", stub returning one image with payload AAAA. -/
theorem generateImage_first_generated_image_witness :
    jsTruthy (effectiveKey none (some "k")) = true ∧
    generateImage oneImageBackend (some "k") "a red fox" "1:1" "imagen-4.0-generate-001" none none
      = (Except.ok "AAAA",
         [BackendCall.images "k" (imagesRequest "a red fox" "1:1")]) :=
  ⟨by decide,
   generateImage_first_generated_image oneImageBackend (some "k") "a red fox" "1:1" none none
     ⟨some [⟨⟨"AAAA"⟩⟩]⟩ ⟨⟨"AAAA"⟩⟩ [] (by decide) rfl rfl⟩

/-- The backend-call trace of generateImage is the trace of the dispatch
when the client resolves, and empty otherwise. -/
theorem generateImage_calls
    (backend : Backend) (env : Option String) (prompt aspectRatio model : String)
    (image : Option ImageInput) (apiKey : Option String) :
    (generateImage backend env prompt aspectRatio model image apiKey).2
      = match getAiClient apiKey env with
        | .error _ => []
        | .ok ai => (dispatch backend ai prompt aspectRatio model image).2 := by
  unfold generateImage
  cases getAiClient apiKey env with
  | error e => rfl
  | ok ai =>
    cases hd : dispatch backend ai prompt aspectRatio model image with
    | mk r calls => cases r <;> simp [hd]

/-- The trace of an edit-variant dispatch: empty when the parts validation
fails, otherwise exactly one generateContent call with the built request. -/
theorem dispatch_edit_calls (backend : Backend) (ai : GoogleGenAI)
    (prompt aspectRatio : String) (image : Option ImageInput) :
    (dispatch backend ai prompt aspectRatio "gemini-2.5-flash-image-preview" image).2
      = if editParts prompt image = [] then []
        else [BackendCall.content ai.apiKey (contentRequest prompt image)] := by
  unfold dispatch
  by_cases h3 : editParts prompt image = []
  · simp [h3]
  · cases hc : backend.generateContent ai.apiKey (contentRequest prompt image) with
    | error e => simp [h3, hc]
    | ok r =>
      cases hf : firstInlineData (partsOf r) with
      | none => simp [h3, hc, hf]
      | some d => simp [h3, hc, hf]

/-- Claim C6: on the edit branch, when the credential resolves, the local
validation passes and the backend response contains a part carrying inline
data preceded only by parts without inline data, generateImage returns the
payload of that first inline-data part (earlier non-binary parts are
skipped). -/
theorem generateImage_edit_first_inline
    (backend : Backend) (env : Option String) (prompt aspectRatio : String)
    (image : Option ImageInput) (apiKey : Option String)
    (response : GenerateContentResponse) (pre : List ResponsePart)
    (part : ResponsePart) (rest : List ResponsePart) (d : InlineData)
    (hkey : jsTruthy (effectiveKey apiKey env) = true)
    (hparts : editParts prompt image ≠ [])
    (hresp : backend.generateContent ((effectiveKey apiKey env).getD "")
        (contentRequest prompt image) = .ok response)
    (hscan : partsOf response = pre ++ part :: rest)
    (hpre : ∀ q ∈ pre, q.inlineData = none)
    (hpart : part.inlineData = some d) :
    generateImage backend env prompt aspectRatio "gemini-2.5-flash-image-preview" image apiKey
      = (Except.ok d.data,
         [BackendCall.content ((effectiveKey apiKey env).getD "")
           (contentRequest prompt image)]) := by
  have hfirst : firstInlineData (partsOf response) = some d.data := by
    rw [hscan]
    exact firstInlineData_append pre part rest d hpre hpart
  simp [generateImage, getAiClient, hkey, dispatch, hparts, hresp, hfirst]

/-- Witness for C6 at the concrete input given in the spec: image present, empty
prompt, first response part text-only, second carrying payload BBBB. -/
theorem generateImage_edit_first_inline_witness :
    jsTruthy (effectiveKey none (some "k")) = true ∧
    editParts "" (some ⟨"IMG", "image/png"⟩) ≠ [] ∧
    generateImage twoPartBackend (some "k") "" "1:1" "gemini-2.5-flash-image-preview"
        (some ⟨"IMG", "image/png"⟩) none
      = (Except.ok "BBBB",
         [BackendCall.content "k" (contentRequest "" (some ⟨"IMG", "image/png"⟩))]) :=
  ⟨by decide, by decide,
   generateImage_edit_first_inline twoPartBackend (some "k") "" "1:1"
     (some ⟨"IMG", "image/png"⟩) none
     ⟨some [⟨some ⟨some [⟨none, some "hi"⟩, ⟨some ⟨"BBBB", "image/png"⟩, none⟩]⟩⟩]⟩
     [⟨none, some "hi"⟩] ⟨some ⟨"BBBB", "image/png"⟩, none⟩ [] ⟨"BBBB", "image/png"⟩
     (by decide) (by decide) rfl rfl (by simp) rfl⟩

/-- Claim C7: the request issued to the backend by an edit-variant call
carries this ordered part list: an inline-data part with the supplied
image payload and media type first exactly when an image was supplied,
followed by a text part with the prompt exactly when the prompt trims to a
non-empty string. -/
theorem generateImage_edit_request_shape
    (backend : Backend) (env : Option String) (prompt aspectRatio : String)
    (image : Option ImageInput) (apiKey : Option String)
    (k : String) (req : GenerateContentRequest)
    (h : (generateImage backend env prompt aspectRatio "gemini-2.5-flash-image-preview"
            image apiKey).2 = [BackendCall.content k req]) :
    req.parts
      = (match image with
          | some img => [RequestPart.inlineData img.data img.mimeType]
          | none => []) ++
        (if strTrim prompt ≠ "" then [RequestPart.text prompt] else []) := by
  rw [generateImage_calls] at h
  cases hga : getAiClient apiKey env with
  | error e0 => simp only [hga] at h; exact absurd h (by simp)
  | ok ai =>
    simp only [hga] at h
    rw [dispatch_edit_calls] at h
    by_cases h3 : editParts prompt image = []
    · rw [if_pos h3] at h; exact absurd h (by simp)
    · rw [if_neg h3] at h
      simp only [List.cons.injEq, and_true, BackendCall.content.injEq] at h
      obtain ⟨-, hreq⟩ := h
      subst hreq
      cases image <;> rfl

/-- Witness for C7 at a concrete input: image present and non-blank prompt,
so the issued request carries the inline part then the text part. -/
theorem generateImage_edit_request_shape_witness :
    (generateImage twoPartBackend (some "k") "edit it" "1:1"
        "gemini-2.5-flash-image-preview" (some ⟨"IMG", "image/png"⟩) none).2
      = [BackendCall.content "k" (contentRequest "edit it" (some ⟨"IMG", "image/png"⟩))] ∧
    (contentRequest "edit it" (some ⟨"IMG", "image/png"⟩)).parts
      = [RequestPart.inlineData "IMG" "image/png"] ++
        (if strTrim "edit it" ≠ "" then [RequestPart.text "edit it"] else []) :=
  ⟨rfl,
   generateImage_edit_request_shape twoPartBackend (some "k") "edit it" "1:1"
     (some ⟨"IMG", "image/png"⟩) none "k"
     (contentRequest "edit it" (some ⟨"IMG", "image/png"⟩)) rfl⟩

/-- Claim C8: on the text-to-image branch the supplied image input has no
influence: two calls differing only in the image argument produce the same
observable result and issue the same backend calls. -/
theorem generateImage_text_to_image_ignores_image
    (backend : Backend) (env : Option String) (prompt aspectRatio : String)
    (image1 image2 : Option ImageInput) (apiKey : Option String) :
    generateImage backend env prompt aspectRatio "imagen-4.0-generate-001" image1 apiKey
      = generateImage backend env prompt aspectRatio "imagen-4.0-generate-001" image2 apiKey := by
  unfold generateImage
  cases getAiClient apiKey env with
  | error e => rfl
  | ok ai => simp [dispatch]

/-- Claim C9: an empty-string credential override is treated exactly like an
absent one, in both implementations, and only a present non-empty override
binds the client to the override. -/
theorem empty_override_treated_as_absent :
    (∀ env, getAiClient (some "") env = getAiClient none env) ∧
    (∀ defaultKey, getAiClient2 defaultKey (some "") = getAiClient2 defaultKey none) ∧
    (∀ backend env prompt aspectRatio model image,
        generateImage backend env prompt aspectRatio model image (some "")
          = generateImage backend env prompt aspectRatio model image none) ∧
    (∀ s env, s ≠ "" → getAiClient (some s) env = Except.ok ⟨s⟩) := by
  refine ⟨fun env => rfl, fun defaultKey => rfl, fun _ _ _ _ _ _ => rfl, ?_⟩
  intro s env hs
  simp [getAiClient, effectiveKey, jsTruthy, hs]

/-- Witness for C9 at concrete inputs. -/
theorem empty_override_treated_as_absent_witness :
    getAiClient (some "") (some "envkey") = getAiClient none (some "envkey") ∧
    ("custom" ≠ "" ∧ getAiClient (some "custom") (some "envkey") = Except.ok ⟨"custom"⟩) :=
  ⟨empty_override_treated_as_absent.1 (some "envkey"),
   by decide,
   empty_override_treated_as_absent.2.2.2 "custom" (some "envkey") (by decide)⟩

/-- Claim C10: when the process-wide default credential is set (non-empty,
as the part_001 module asserts at load time), the geminiService.ts
implementation and the part_001 implementation agree on every input: same
observable result and same backend calls. -/
theorem generateImage_matches_part001
    (backend : Backend) (defaultKey : String) (prompt aspectRatio model : String)
    (image : Option ImageInput) (apiKey : Option String)
    (hdk : defaultKey ≠ "") :
    generateImage backend (some defaultKey) prompt aspectRatio model image apiKey
      = generateImage2 backend defaultKey prompt aspectRatio model image apiKey := by
  have hclient : getAiClient apiKey (some defaultKey)
      = Except.ok (getAiClient2 defaultKey apiKey) := by
    cases apiKey with
    | none => simp [getAiClient, getAiClient2, effectiveKey, jsTruthy, hdk]
    | some s =>
      by_cases hs : s = ""
      · subst hs; simp [getAiClient, getAiClient2, effectiveKey, jsTruthy, hdk]
      · simp [getAiClient, getAiClient2, effectiveKey, jsTruthy, hs]
  unfold generateImage generateImage2
  rw [hclient]

/-- Witness for C10 at a concrete input. -/
theorem generateImage_matches_part001_witness :
    ("k" ≠ "") ∧
    generateImage oneImageBackend (some "k") "p" "1:1" "imagen-4.0-generate-001" none none
      = generateImage2 oneImageBackend "k" "p" "1:1" "imagen-4.0-generate-001" none none :=
  ⟨by decide,
   generateImage_matches_part001 oneImageBackend "k" "p" "1:1" "imagen-4.0-generate-001"
     none none (by decide)⟩
